import Mathlib

/-!
Shallow embedding of `machine-learning/app/main.py` (FastAPI service with
model inference endpoints and in-memory faiss vector indices).

Modelling conventions:

* The dispatcher `run` (main.py lines 164-169) invokes the callable it is
  given — inline via `func(*args, **kwargs)` or on the thread pool — and
  returns whatever that call returns, never awaiting it.  The helpers
  `_predict`, `_search`, `_add` and `_create` are `async def`, so a call
  through `run` only binds their arguments and returns the un-awaited
  coroutine object: their bodies never execute.  The embedding models such
  a call as a `PyVal` coroutine value recording the helper and its bound
  arguments.  A call whose argument binding fails — the argument-less
  `run(_create)` at line 161 — raises a TypeError at call time instead
  (binding happens at the call on both dispatch paths).
* Exceptions are modelled with `Except PyErr`.  `PyErr.http` is FastAPI's
  `HTTPException(code, msg)`; `PyErr.typeError` is a Python `TypeError`
  (a call with missing required positional arguments, or orjson failing
  to serialize a coroutine); both `typeError` outcomes surface as HTTP
  500.
* Rendering an `ORJSONResponse` is `orjsonRender`: orjson serializes a
  numeric batch but raises TypeError on a coroutine object.
* NumPy arrays of floats are modelled with exact integer components (no
  claim depends on fractional values or float rounding); an input array is
  an `NDArray` carrying its axis structure, a validated embeddings batch
  is a `List Vec` of rows.
* The external model and index libraries never execute on any path of the
  handlers (no helper body ever runs); only the synchronous reads the
  handlers themselves perform — `vector_stores` membership and the `.d`
  attribute of a stored index — are modelled, via `Stores` and
  `FaissIndex`.
-/

namespace ImmichML

abbrev Vec := List Int

/-- Exceptions observable from a request handler. -/
inductive PyErr where
  | http (code : Nat) (msg : String)
  | typeError (msg : String)
  | keyError (key : String)
  | libError (msg : String)
deriving DecidableEq

/-- A numeric array as received by the endpoints, classified by its number
of axes as `np.array` would infer it: a 0-axis scalar, a 1-axis vector, a
2-axis (rectangular) matrix, or an array with `3 + extraAxes` axes. -/
inductive NDArray where
  | scalar (x : Int)
  | vec (xs : Vec)
  | mat (rows : List Vec)
  | tensor (extraAxes : Nat)
deriving DecidableEq

/-- Number of axes (`len(embeddings.shape)`). -/
def NDArray.ndim : NDArray → Nat
  | .scalar _ => 0
  | .vec _ => 1
  | .mat _ => 2
  | .tensor n => n + 3

/-- Column count `shape[1]` of a 2-D batch of rows. -/
def numCols (rows : List Vec) : Nat := (rows.head?.getD []).length

def axesMsg : String := "Expected one or two axes for embeddings"
def dimMsg : String := "Dimension size must be at least 10"

/-- Lines 31-39: `np.array` the input; a 1-axis array is promoted to a
single-row batch with `np.expand_dims`; any other axis count than 2 is a
400; a column count below 10 is a 400. -/
def validate_embeddings : NDArray → Except PyErr (List Vec)
  | .scalar _ => .error (.http 400 axesMsg)
  | .tensor _ => .error (.http 400 axesMsg)
  | .vec xs =>
      if numCols [xs] < 10 then .error (.http 400 dimMsg) else .ok [xs]
  | .mat rows =>
      if numCols rows < 10 then .error (.http 400 dimMsg) else .ok rows

/-- A stored index object (`faiss.IndexIDMap2`): the handlers only ever
read its `.d` attribute synchronously; `entries` is its (otherwise
untouched) content. -/
structure FaissIndex where
  d : Nat
  entries : List (String × Vec)
deriving DecidableEq

/-- The global `vector_stores` dict: name to index. -/
abbrev Stores := List (String × FaissIndex)

/-- Dict lookup `vector_stores[name]` / membership `name in vector_stores`. -/
def findIndex (st : Stores) (name : String) : Option FaissIndex :=
  match st with
  | [] => none
  | (n, idx) :: rest => if n = name then some idx else findIndex rest name

/-- Input to the model: uploaded image bytes or the text form field. -/
inductive ModelInput where
  | img (bytes : List Nat)
  | txt (s : String)
deriving DecidableEq

/-- A Python value flowing through a handler's `outputs` variable: a
numeric batch, or an un-awaited coroutine object produced by calling one
of the async helpers through `run`, recording the helper and its bound
arguments (the helper's body never executes). -/
inductive PyVal where
  | floatArr (rows : List Vec)
  | predictCoro (inp : ModelInput)
  | searchCoro (name : String) (embeddings : PyVal) (k : Int)
  | addCoro (name : String) (ids : List String) (embeddings : PyVal)
deriving DecidableEq

/-- Lines 202-207 `_predict`, as called through `run` (lines 94, 124):
the arguments are bound and the un-awaited coroutine is returned; the
body — model cache lookup, load, predict — never executes. -/
def _predict (inp : ModelInput) : PyVal := .predictCoro inp

/-- Lines 196-199 `_search`, as called through `run` (lines 99, 134):
the arguments are bound and the un-awaited coroutine is returned; the
body (dict subscript and `assign`) never executes — no search ever
runs. -/
def _search (name : String) (embeddings : PyVal) (k : Int) : PyVal :=
  .searchCoro name embeddings k

/-- Lines 192-193 `_add`, as called through `run` (lines 101, 147): the
arguments are bound and the un-awaited coroutine is returned; the body
(dict subscript and `add_with_ids`) never executes — nothing is ever
appended to any index. -/
def _add (name : String) (ids : List String) (embeddings : PyVal) : PyVal :=
  .addCoro name ids embeddings

def serializeMsg : String := "Type is not JSON serializable: coroutine"

/-- Rendering an `ORJSONResponse`: orjson serializes a numeric batch but
raises a TypeError on a coroutine object, surfacing as an HTTP 500. -/
def orjsonRender (v : PyVal) : Except PyErr PyVal :=
  match v with
  | .floatArr rows => .ok (.floatArr rows)
  | _ => .error (.typeError serializeMsg)

def notFoundMsg : String := "Index not found"
def countMsg : String := "Number of embedding IDs must match number of embeddings"
def createCallMsg : String := "_create() missing 2 required positional arguments"

/-- Lines 150-161, body of `create` after embeddings validation: a 400
when the id count differs from the row count; otherwise the handler
executes `vector_stores[index_name] = await run(_create)`, which invokes
`_create` with none of its two required positional arguments — argument
binding fails with a Python TypeError before any coroutine even exists,
so no index is ever built and the stores are unchanged. -/
def createBody (st : Stores) (_name : String) (ids : List String)
    (emb : List Vec) : Except PyErr Unit × Stores :=
  if emb.length ≠ ids.length then (.error (.http 400 countMsg), st)
  else (.error (.typeError createCallMsg), st)

/-- The `create` endpoint: validate embeddings (FastAPI `Depends`), then
the `create` body. -/
def createEndpoint (st : Stores) (name : String) (ids : List String)
    (nd : NDArray) : Except PyErr Unit × Stores :=
  match validate_embeddings nd with
  | .error e => (.error e, st)
  | .ok emb => createBody st name ids emb

/-- Lines 138-147, the `add` endpoint: validate embeddings; when the name
is absent or the stored dimensionality differs from the column count,
call `create` (directly, with the validated embeddings); otherwise
`await run(_add, ...)` only builds and discards the un-awaited `_add`
coroutine — the handler returns None (HTTP 200) and the store is
unchanged. -/
def addEndpoint (st : Stores) (name : String) (ids : List String)
    (nd : NDArray) : Except PyErr Unit × Stores :=
  match validate_embeddings nd with
  | .error e => (.error e, st)
  | .ok emb =>
      match findIndex st name with
      | none => createBody st name ids emb
      | some idx =>
          if idx.d ≠ numCols emb then createBody st name ids emb
          else
            let _discarded := _add name ids (.floatArr emb)
            (.ok (), st)

/-- Lines 128-135, the `search` endpoint: validate embeddings; a 404 when
the name is absent or the stored dimensionality differs from the column
count (line 132, a synchronous check that really runs); otherwise
`outputs = await run(_search, ...)` is the un-awaited coroutine and the
`ORJSONResponse` over it fails to serialize. -/
def searchEndpoint (st : Stores) (name : String) (nd : NDArray) (k : Int) :
    Except PyErr PyVal × Stores :=
  match validate_embeddings nd with
  | .error e => (.error e, st)
  | .ok emb =>
      match findIndex st name with
      | none => (.error (.http 404 notFoundMsg), st)
      | some idx =>
          if idx.d ≠ numCols emb then (.error (.http 404 notFoundMsg), st)
          else (orjsonRender (_search name (.floatArr emb) k), st)

/-- Lines 83-88 (and 113-118): an uploaded image is read and used as the
input; otherwise the text field; otherwise a 400. -/
def pickInput (image : Option (List Nat)) (text : Option String) :
    Except PyErr ModelInput :=
  match image with
  | some b => .ok (.img b)
  | none =>
      match text with
      | some t => .ok (.txt t)
      | none => .error (.http 400 "Either image or text must be provided")

def optionsMsg : String := "Invalid options JSON"
def kMsg : String := "k must be a positive integer"

/-- Lines 105-125, the `predict` endpoint: pick the input, parse the
options JSON (`optionsOk` abstracts the parse succeeding), then
`outputs = await run(_predict, ...)` is the un-awaited coroutine bound to
the selected input, and the `ORJSONResponse` over it fails to
serialize — the model never runs and no prediction is returned. -/
def predictEndpoint (image : Option (List Nat)) (text : Option String)
    (optionsOk : Bool) : Except PyErr PyVal :=
  match pickInput image text with
  | .error e => .error e
  | .ok inputs =>
      if !optionsOk then .error (.http 400 optionsMsg)
      else orjsonRender (_predict inputs)

/-- Lines 72-102, the `pipeline` endpoint: pick the input, parse options;
`outputs` starts as the un-awaited `_predict` coroutine; with index_name
set: a set k < 1 is a 400 (line 97, reached — building the coroutine
raised nothing); a set k ≥ 1 replaces `outputs` by the un-awaited
`_search` coroutine bound to the previous `outputs`; a set embedding_id
builds an `_add` coroutine over the current `outputs` and discards it
un-awaited (no store change, no error); the response then renders the
final `outputs`, failing on the coroutine. -/
def pipeline (st : Stores) (image : Option (List Nat))
    (text : Option String) (optionsOk : Bool) (indexName : Option String)
    (embeddingId : Option String) (k : Option Int) :
    Except PyErr PyVal × Stores :=
  match pickInput image text with
  | .error e => (.error e, st)
  | .ok inputs =>
      if !optionsOk then (.error (.http 400 optionsMsg), st)
      else
        let outputs := _predict inputs
        match indexName with
        | none => (orjsonRender outputs, st)
        | some name =>
            match k with
            | some kv =>
                if kv < 1 then (.error (.http 400 kMsg), st)
                else
                  let outputs2 := _search name outputs kv
                  let _discarded :=
                    embeddingId.map (fun e => _add name [e] outputs2)
                  (orjsonRender outputs2, st)
            | none =>
                let _discarded :=
                  embeddingId.map (fun e => _add name [e] outputs)
                (orjsonRender outputs, st)

/-- Outcome of one `model.load()` call: `none` is success, `some e` the
exception raised. -/
inductive LoadErr where
  | osError
  | invalidProtobuf
  | badZipFile
  | noSuchFile
  | otherError
deriving DecidableEq

/-- Whether the error is in the tuple caught at line 180:
`(OSError, InvalidProtobuf, BadZipFile, NoSuchFile)`. -/
def LoadErr.retryable : LoadErr → Bool
  | .osError => true
  | .invalidProtobuf => true
  | .badZipFile => true
  | .noSuchFile => true
  | .otherError => false

structure InferenceModel where
  loaded : Bool
deriving DecidableEq

/-- Observable actions of `_load` on the model. -/
inductive LoadEvent where
  | loadAttempt
  | clearCache
deriving DecidableEq

/-- Lines 172-189 `_load`, with the two possible `model.load()` outcomes
supplied as oracles (`_load` is awaited directly by `_predict` and
contains no `run` dispatch of its own): an already loaded model is
returned at once; a first failure in the caught tuple leads to
`clear_cache()` and exactly one unguarded retry whose failure propagates;
any other first failure propagates directly. -/
def loadModel (m : InferenceModel) (first second : Option LoadErr) :
    Except LoadErr InferenceModel × List LoadEvent :=
  if m.loaded then (.ok m, [])
  else
    match first with
    | none => (.ok ⟨true⟩, [.loadAttempt])
    | some e =>
        if e.retryable then
          match second with
          | none => (.ok ⟨true⟩, [.loadAttempt, .clearCache, .loadAttempt])
          | some e2 => (.error e2, [.loadAttempt, .clearCache, .loadAttempt])
        else (.error e, [.loadAttempt])

/-- One request against the vector-store state, for reachability over the
three index endpoints. -/
inductive Op where
  | create (name : String) (ids : List String) (nd : NDArray)
  | add (name : String) (ids : List String) (nd : NDArray)
  | search (name : String) (nd : NDArray) (k : Int)

/-- The store state after one request. -/
def stepStores (st : Stores) : Op → Stores
  | .create name ids nd => (createEndpoint st name ids nd).2
  | .add name ids nd => (addEndpoint st name ids nd).2
  | .search name nd k => (searchEndpoint st name nd k).2

/-- The store state after a sequence of requests. -/
def runOps (st : Stores) (ops : List Op) : Stores := ops.foldl stepStores st

/-- Whether a handler outcome is an HTTP 400 response. -/
def isHttp400 {α : Type} : Except PyErr α → Bool
  | .error (.http c _) => c == 400
  | _ => false

/-- C3: validate_embeddings accepts a 1-axis array with at least 10
elements, promoting it to a single-row batch, accepts a 2-axis array with
at least 10 columns unchanged, and responds HTTP 400 for any array with 0
axes, 3 or more axes, or fewer than 10 columns. -/
theorem c3_validate_embeddings_shape :
    (∀ xs : Vec, 10 ≤ xs.length → validate_embeddings (.vec xs) = .ok [xs]) ∧
    (∀ xs : Vec, xs.length < 10 →
      validate_embeddings (.vec xs) = .error (.http 400 dimMsg)) ∧
    (∀ rows : List Vec, 10 ≤ numCols rows →
      validate_embeddings (.mat rows) = .ok rows) ∧
    (∀ rows : List Vec, numCols rows < 10 →
      validate_embeddings (.mat rows) = .error (.http 400 dimMsg)) ∧
    (∀ nd : NDArray, nd.ndim ≠ 1 → nd.ndim ≠ 2 →
      validate_embeddings nd = .error (.http 400 axesMsg)) := by
  refine ⟨?_, ?_, ?_, ?_, ?_⟩
  · intro xs h
    simp [validate_embeddings, numCols]
    omega
  · intro xs h
    simp [validate_embeddings, numCols]
    omega
  · intro rows h
    simp [validate_embeddings]
    omega
  · intro rows h
    simp [validate_embeddings]
    omega
  · intro nd h1 h2
    cases nd with
    | scalar x => rfl
    | vec xs => exact absurd rfl h1
    | mat rows => exact absurd rfl h2
    | tensor n => rfl

theorem c3_validate_embeddings_shape_witness :
    validate_embeddings (.vec [0,1,2,3,4,5,6,7,8,9])
        = .ok [[0,1,2,3,4,5,6,7,8,9]] ∧
    validate_embeddings (.vec [7]) = .error (.http 400 dimMsg) ∧
    validate_embeddings (.mat [[0,1,2,3,4,5,6,7,8,9]])
        = .ok [[0,1,2,3,4,5,6,7,8,9]] ∧
    validate_embeddings (.mat [[7]]) = .error (.http 400 dimMsg) ∧
    validate_embeddings (.scalar 3) = .error (.http 400 axesMsg) :=
  ⟨c3_validate_embeddings_shape.1 _ (by decide),
   c3_validate_embeddings_shape.2.1 _ (by decide),
   c3_validate_embeddings_shape.2.2.1 _ (by decide),
   c3_validate_embeddings_shape.2.2.2.1 _ (by decide),
   c3_validate_embeddings_shape.2.2.2.2 _ (by decide) (by decide)⟩

/-- C10: when both an uploaded image and a text field are supplied, the
handlers read the image and bind its bytes as the selected model input —
the text is silently ignored: the picked input is the image, the predict
response is the rendering of the `_predict` coroutine bound to the image
bytes, and predict and pipeline behave identically with the text
dropped. -/
theorem c10_image_precedence (st : Stores) (b : List Nat) (t : String)
    (optionsOk : Bool) (indexName embeddingId : Option String)
    (k : Option Int) :
    pickInput (some b) (some t) = .ok (.img b) ∧
    predictEndpoint (some b) (some t) optionsOk
        = predictEndpoint (some b) none optionsOk ∧
    predictEndpoint (some b) (some t) true
        = orjsonRender (_predict (.img b)) ∧
    pipeline st (some b) (some t) optionsOk indexName embeddingId k
        = pipeline st (some b) none optionsOk indexName embeddingId k :=
  ⟨rfl, rfl, rfl, rfl⟩

/-- C7: _load returns an already loaded model without reloading; a first
load failure from the caught tuple (OSError, InvalidProtobuf, BadZipFile,
NoSuchFile) is followed by exactly one cache clear and exactly one reload
attempt, whose failure propagates unhandled, with no further retries. -/
theorem c7_load_retry (m : InferenceModel) (first second : Option LoadErr)
    (e : LoadErr) :
    (m.loaded = true → loadModel m first second = (.ok m, [])) ∧
    (m.loaded = false → first = some e → e.retryable = true →
      (loadModel m first second).2
          = [.loadAttempt, .clearCache, .loadAttempt] ∧
      (∀ e2, second = some e2 → (loadModel m first second).1 = .error e2) ∧
      (second = none → (loadModel m first second).1 = .ok ⟨true⟩)) := by
  constructor
  · intro h
    simp [loadModel, h]
  · intro hm hf he
    subst hf
    cases second with
    | none => simp [loadModel, hm, he]
    | some e2 => simp [loadModel, hm, he]

theorem c7_load_retry_witness :
    loadModel ⟨true⟩ none none = (.ok ⟨true⟩, []) ∧
    (loadModel ⟨false⟩ (some .osError) (some .otherError)).2
        = [.loadAttempt, .clearCache, .loadAttempt] ∧
    (loadModel ⟨false⟩ (some .osError) (some .otherError)).1
        = .error .otherError :=
  ⟨(c7_load_retry ⟨true⟩ none none .osError).1 rfl,
   ((c7_load_retry ⟨false⟩ (some .osError) (some .otherError) .osError).2
      rfl rfl rfl).1,
   ((c7_load_retry ⟨false⟩ (some .osError) (some .otherError) .osError).2
      rfl rfl rfl).2.1 .otherError rfl⟩

/-- C2: evaluating the spec's example on the code: the create request
raises a TypeError (line 161 invokes _create with no arguments), no index
is created, and the subsequent search responds 404 instead of returning
one of the two inserted ids. -/
theorem c2_create_search_example :
    createEndpoint [] "foo" ["a","b"]
        (.mat [[0,1,2,3,4,5,6,7,8,9], [100,1,2,3,4,5,6,7,8,9]])
      = (.error (.typeError createCallMsg), []) ∧
    (searchEndpoint [] "foo" (.vec [0,1,2,3,4,5,6,7,8,10]) 1).1
      = .error (.http 404 notFoundMsg) :=
  ⟨rfl, rfl⟩

/-- C5: adding to an absent index, or to one of mismatched
dimensionality, does not create the index from the given ids and vectors:
the create path raises the TypeError from the argument-less _create call
and the store is unchanged. -/
theorem c5_add_create_fallback_bug :
    addEndpoint [] "bar" ["a"] (.mat [[0,1,2,3,4,5,6,7,8,9]])
      = (.error (.typeError createCallMsg), []) ∧
    addEndpoint [("bar", ⟨12, []⟩)] "bar" ["a"]
        (.mat [[0,1,2,3,4,5,6,7,8,9]])
      = (.error (.typeError createCallMsg), [("bar", ⟨12, []⟩)]) :=
  ⟨rfl, rfl⟩

/-- C9 counterexample: a search with k = 0 responds 404 (absent index),
not 400 as the claim requires; the search endpoint has no k check. -/
theorem c9_search_k_counterexample :
    searchEndpoint [] "foo" (.vec [0,1,2,3,4,5,6,7,8,9]) 0
        = (.error (.http 404 notFoundMsg), []) ∧
    isHttp400 (searchEndpoint [] "foo" (.vec [0,1,2,3,4,5,6,7,8,9]) 0).1
        = false :=
  ⟨rfl, rfl⟩

/-- C1 counterexample: with index_name, k and embedding_id all set, no
predict, search or add ever executes (the dispatched coroutines are never
awaited): the response is the TypeError of serializing the un-awaited
search coroutine, the store is unchanged and nothing is added — not the
search-result response the claim requires. -/
theorem c1_pipeline_counterexample :
    pipeline [("idx", ⟨10, [("a", [0,1,2,3,4,5,6,7,8,9])]⟩)]
        (some [1]) none true (some "idx") (some "x") (some 1)
      = (.error (.typeError serializeMsg),
         [("idx", ⟨10, [("a", [0,1,2,3,4,5,6,7,8,9])]⟩)]) :=
  rfl

/-- C6 counterexample: an add with two ids and one vector against an
existing index of matching dimensionality responds success with the
store unchanged — the un-awaited _add coroutine is discarded — and is in
particular not the HTTP 400 the claim requires. -/
theorem c6_add_mismatch_counterexample :
    addEndpoint [("foo", ⟨10, [("a", [0,1,2,3,4,5,6,7,8,9])]⟩)]
        "foo" ["x","y"] (.mat [[5,5,5,5,5,5,5,5,5,5]])
      = (.ok (), [("foo", ⟨10, [("a", [0,1,2,3,4,5,6,7,8,9])]⟩)]) ∧
    isHttp400 (addEndpoint [("foo", ⟨10, [("a", [0,1,2,3,4,5,6,7,8,9])]⟩)]
        "foo" ["x","y"] (.mat [[5,5,5,5,5,5,5,5,5,5]])).1 = false :=
  ⟨rfl, rfl⟩

/-- C4 counterexample: a search with validated embeddings against an
existing index of matching dimensionality does not return neighbor ids:
the _search coroutine is never awaited, so no search executes and the
response is the TypeError of serializing the coroutine. -/
theorem c4_search_counterexample :
    searchEndpoint [("idx", ⟨10, [("a", [0,1,2,3,4,5,6,7,8,9])]⟩)]
        "idx" (.vec [0,1,2,3,4,5,6,7,8,10]) 1
      = (.error (.typeError serializeMsg),
         [("idx", ⟨10, [("a", [0,1,2,3,4,5,6,7,8,9])]⟩)]) :=
  rfl

theorem createBody_snd (st : Stores) (name : String) (ids : List String)
    (emb : List Vec) : (createBody st name ids emb).2 = st := by
  unfold createBody
  split <;> rfl

theorem createEndpoint_snd (st : Stores) (name : String) (ids : List String)
    (nd : NDArray) : (createEndpoint st name ids nd).2 = st := by
  unfold createEndpoint
  cases validate_embeddings nd with
  | error e => rfl
  | ok emb => exact createBody_snd st name ids emb

theorem searchEndpoint_snd (st : Stores) (name : String) (nd : NDArray)
    (k : Int) : (searchEndpoint st name nd k).2 = st := by
  unfold searchEndpoint
  split
  · rfl
  · split
    · rfl
    · split <;> rfl

theorem addEndpoint_snd (st : Stores) (name : String) (ids : List String)
    (nd : NDArray) : (addEndpoint st name ids nd).2 = st := by
  unfold addEndpoint
  split
  · rfl
  · split
    · exact createBody_snd st name ids _
    · split
      · exact createBody_snd st name ids _
      · rfl

theorem stepStores_nil (op : Op) : stepStores [] op = [] := by
  cases op with
  | create name ids nd => exact createEndpoint_snd [] name ids nd
  | add name ids nd => exact addEndpoint_snd [] name ids nd
  | search name nd k => exact searchEndpoint_snd [] name nd k

/-- C8: no sequence of create, add and search requests ever creates an
index — the store stays empty forever, because create raises the
TypeError from the argument-less _create call before assigning (and add
never mutates: its _add coroutine is never awaited), so the claimed
dimensionality invariant is only vacuously maintained; evaluated at the
spec's example create request. -/
theorem c8_no_index_ever_created :
    (∀ ops : List Op, runOps [] ops = []) ∧
    createEndpoint [] "foo" ["a","b"]
        (.mat [[0,1,2,3,4,5,6,7,8,9], [100,1,2,3,4,5,6,7,8,9]])
      = (.error (.typeError createCallMsg), []) := by
  refine ⟨?_, rfl⟩
  intro ops
  induction ops with
  | nil => rfl
  | cons op ops ih =>
    show List.foldl stepStores [] (op :: ops) = []
    rw [List.foldl_cons, stepStores_nil]
    exact ih

/-- C4 amended: with validated embeddings the search endpoint responds
404 exactly when the named index is absent or its stored dimensionality
differs from the embeddings' column count; otherwise it builds the
_search coroutine over the validated embeddings without ever awaiting
it — no search executes — and the response is the TypeError of
serializing that coroutine: neighbor ids are never returned. -/
theorem c4_search_amended (st : Stores) (name : String) (nd : NDArray)
    (k : Int) (emb : List Vec) (idx : FaissIndex) :
    (validate_embeddings nd = .ok emb → findIndex st name = none →
      searchEndpoint st name nd k = (.error (.http 404 notFoundMsg), st)) ∧
    (validate_embeddings nd = .ok emb → findIndex st name = some idx →
      idx.d ≠ numCols emb →
      searchEndpoint st name nd k = (.error (.http 404 notFoundMsg), st)) ∧
    (validate_embeddings nd = .ok emb → findIndex st name = some idx →
      idx.d = numCols emb →
      searchEndpoint st name nd k
          = (orjsonRender (_search name (.floatArr emb) k), st) ∧
      orjsonRender (_search name (.floatArr emb) k)
          = .error (.typeError serializeMsg)) := by
  refine ⟨?_, ?_, ?_⟩
  · intro hv hf
    simp [searchEndpoint, hv, hf]
  · intro hv hf hd
    simp [searchEndpoint, hv, hf, hd]
  · intro hv hf hd
    refine ⟨?_, rfl⟩
    simp [searchEndpoint, hv, hf, hd]

theorem c4_search_amended_witness :
    searchEndpoint [] "foo" (.vec [0,1,2,3,4,5,6,7,8,9]) 1
        = (.error (.http 404 notFoundMsg), []) ∧
    searchEndpoint [("foo", ⟨12, []⟩)] "foo"
        (.vec [0,1,2,3,4,5,6,7,8,9]) 1
        = (.error (.http 404 notFoundMsg), [("foo", ⟨12, []⟩)]) ∧
    searchEndpoint [("idx", ⟨10, [("a", [0,1,2,3,4,5,6,7,8,9])]⟩)]
        "idx" (.vec [0,1,2,3,4,5,6,7,8,10]) 1
        = (.error (.typeError serializeMsg),
           [("idx", ⟨10, [("a", [0,1,2,3,4,5,6,7,8,9])]⟩)]) :=
  ⟨(c4_search_amended [] "foo" (.vec [0,1,2,3,4,5,6,7,8,9]) 1
      [[0,1,2,3,4,5,6,7,8,9]] ⟨0, []⟩).1 rfl rfl,
   (c4_search_amended [("foo", ⟨12, []⟩)] "foo"
      (.vec [0,1,2,3,4,5,6,7,8,9]) 1
      [[0,1,2,3,4,5,6,7,8,9]] ⟨12, []⟩).2.1 rfl rfl (by decide),
   (((c4_search_amended [("idx", ⟨10, [("a", [0,1,2,3,4,5,6,7,8,9])]⟩)]
      "idx" (.vec [0,1,2,3,4,5,6,7,8,10]) 1
      [[0,1,2,3,4,5,6,7,8,10]]
      ⟨10, [("a", [0,1,2,3,4,5,6,7,8,9])]⟩).2.2 rfl rfl rfl).1).trans
     (by rfl)⟩

/-- C1 amended: for a pipeline request with index_name set (input
present, valid options): outputs is first the un-awaited _predict
coroutine — the model never runs; a set k < 1 responds 400; a set k ≥ 1
replaces outputs by the un-awaited _search coroutine bound to the
previous outputs — no search executes; a set embedding_id only builds
and discards an _add coroutine, so nothing is ever added and the store
is unchanged; the response is the TypeError of serializing the
latest-computed outputs coroutine. -/
theorem c1_pipeline_amended (st : Stores) (b : List Nat) (name : String)
    (eid : Option String) (kv : Int) :
    (kv < 1 →
      pipeline st (some b) none true (some name) eid (some kv)
        = (.error (.http 400 kMsg), st)) ∧
    (1 ≤ kv →
      pipeline st (some b) none true (some name) eid (some kv)
        = (orjsonRender (_search name (_predict (.img b)) kv), st) ∧
      orjsonRender (_search name (_predict (.img b)) kv)
        = .error (.typeError serializeMsg)) ∧
    (pipeline st (some b) none true (some name) eid none
        = (orjsonRender (_predict (.img b)), st) ∧
      orjsonRender (_predict (.img b))
        = .error (.typeError serializeMsg)) := by
  refine ⟨?_, ?_, ?_⟩
  · intro hk
    simp [pipeline, pickInput, hk]
  · intro hk
    have hk2 : ¬ kv < 1 := not_lt.mpr hk
    exact ⟨by simp [pipeline, pickInput, hk2], rfl⟩
  · exact ⟨by simp [pipeline, pickInput], rfl⟩

theorem c1_pipeline_amended_witness :
    pipeline [] (some [1]) none true (some "idx") (some "x") (some 0)
      = (.error (.http 400 kMsg), []) ∧
    pipeline [] (some [1]) none true (some "idx") (some "x") (some 1)
      = (.error (.typeError serializeMsg), []) ∧
    pipeline [] (some [1]) none true (some "idx") (some "x") none
      = (.error (.typeError serializeMsg), []) :=
  ⟨(c1_pipeline_amended [] [1] "idx" (some "x") 0).1 (by decide),
   (((c1_pipeline_amended [] [1] "idx" (some "x") 1).2.1
      (by decide)).1).trans (by rfl),
   (((c1_pipeline_amended [] [1] "idx" (some "x") 1).2.2).1).trans
     (by rfl)⟩

/-- C6 amended: create responds 400 on mismatched id/vector counts,
leaving the stores unchanged, and a matching-count create passes this
check (then failing with the TypeError of the argument-less _create
call); add responds that 400 only when it takes the create path (index
absent, and likewise when dimensionality is mismatched); against an
existing index of matching dimensionality the handler discards the
un-awaited _add coroutine and responds success with the store
unchanged — no 400 and no append, whatever the counts. -/
theorem c6_count_check_amended (st : Stores) (name : String)
    (ids : List String) (nd : NDArray) (emb : List Vec)
    (idx : FaissIndex) :
    (validate_embeddings nd = .ok emb → emb.length ≠ ids.length →
      createEndpoint st name ids nd = (.error (.http 400 countMsg), st)) ∧
    (validate_embeddings nd = .ok emb → emb.length = ids.length →
      createEndpoint st name ids nd
          = (.error (.typeError createCallMsg), st)) ∧
    (validate_embeddings nd = .ok emb → emb.length ≠ ids.length →
      findIndex st name = none →
      addEndpoint st name ids nd = (.error (.http 400 countMsg), st)) ∧
    (validate_embeddings nd = .ok emb → findIndex st name = some idx →
      idx.d = numCols emb →
      addEndpoint st name ids nd = (.ok (), st)) := by
  refine ⟨?_, ?_, ?_, ?_⟩
  · intro hv hc
    simp [createEndpoint, hv, createBody, hc]
  · intro hv hc
    simp [createEndpoint, hv, createBody, hc]
  · intro hv hc hf
    simp [addEndpoint, hv, hf, createBody, hc]
  · intro hv hf hd
    simp [addEndpoint, hv, hf, hd]

theorem c6_count_check_amended_witness :
    createEndpoint [] "foo" ["a"]
        (.mat [[0,1,2,3,4,5,6,7,8,9], [100,1,2,3,4,5,6,7,8,9]])
      = (.error (.http 400 countMsg), []) ∧
    createEndpoint [] "foo" ["a","b"]
        (.mat [[0,1,2,3,4,5,6,7,8,9], [100,1,2,3,4,5,6,7,8,9]])
      = (.error (.typeError createCallMsg), []) ∧
    addEndpoint [] "foo" ["a"]
        (.mat [[0,1,2,3,4,5,6,7,8,9], [100,1,2,3,4,5,6,7,8,9]])
      = (.error (.http 400 countMsg), []) ∧
    addEndpoint [("foo", ⟨10, [("a", [0,1,2,3,4,5,6,7,8,9])]⟩)]
        "foo" ["x","y"] (.mat [[5,5,5,5,5,5,5,5,5,5]])
      = (.ok (), [("foo", ⟨10, [("a", [0,1,2,3,4,5,6,7,8,9])]⟩)]) :=
  ⟨(c6_count_check_amended [] "foo" ["a"]
      (.mat [[0,1,2,3,4,5,6,7,8,9], [100,1,2,3,4,5,6,7,8,9]])
      [[0,1,2,3,4,5,6,7,8,9], [100,1,2,3,4,5,6,7,8,9]] ⟨0, []⟩).1
      rfl (by decide),
   (c6_count_check_amended [] "foo" ["a","b"]
      (.mat [[0,1,2,3,4,5,6,7,8,9], [100,1,2,3,4,5,6,7,8,9]])
      [[0,1,2,3,4,5,6,7,8,9], [100,1,2,3,4,5,6,7,8,9]] ⟨0, []⟩).2.1
      rfl (by decide),
   (c6_count_check_amended [] "foo" ["a"]
      (.mat [[0,1,2,3,4,5,6,7,8,9], [100,1,2,3,4,5,6,7,8,9]])
      [[0,1,2,3,4,5,6,7,8,9], [100,1,2,3,4,5,6,7,8,9]] ⟨0, []⟩).2.2.1
      rfl (by decide) rfl,
   (c6_count_check_amended [("foo", ⟨10, [("a", [0,1,2,3,4,5,6,7,8,9])]⟩)]
      "foo" ["x","y"] (.mat [[5,5,5,5,5,5,5,5,5,5]])
      [[5,5,5,5,5,5,5,5,5,5]]
      ⟨10, [("a", [0,1,2,3,4,5,6,7,8,9])]⟩).2.2.2 rfl rfl rfl⟩

/-- C9 amended: only pipeline validates k: with index_name set and k < 1
it responds 400; the search endpoint performs no k validation, so with
validated embeddings and k < 1 its response is never an HTTP 400 — it is
a 404 or the serialization failure of the un-awaited search coroutine. -/
theorem c9_nonpositive_k_amended (st : Stores) (b : List Nat)
    (name : String) (eid : Option String) (kv : Int) (nd : NDArray)
    (emb : List Vec) (k2 : Int) :
    (kv < 1 →
      pipeline st (some b) none true (some name) eid (some kv)
        = (.error (.http 400 kMsg), st)) ∧
    (validate_embeddings nd = .ok emb → k2 < 1 →
      isHttp400 (searchEndpoint st name nd k2).1 = false) := by
  constructor
  · intro hk
    simp [pipeline, pickInput, hk]
  · intro hv hk
    have h1 : searchEndpoint st name nd k2
        = match findIndex st name with
          | none => (.error (.http 404 notFoundMsg), st)
          | some idx =>
              if idx.d ≠ numCols emb
              then (.error (.http 404 notFoundMsg), st)
              else (orjsonRender (_search name (.floatArr emb) k2), st) := by
      unfold searchEndpoint
      rw [hv]
    rw [h1]
    cases hf : findIndex st name with
    | none => rfl
    | some idx =>
      show isHttp400 (if idx.d ≠ numCols emb
          then ((.error (.http 404 notFoundMsg), st)
            : Except PyErr PyVal × Stores)
          else (orjsonRender (_search name (.floatArr emb) k2), st)).1
        = false
      by_cases hd : idx.d ≠ numCols emb
      · rw [if_pos hd]
        rfl
      · rw [if_neg hd]
        rfl

theorem c9_nonpositive_k_amended_witness :
    pipeline [] (some [1]) none true (some "foo") none (some 0)
      = (.error (.http 400 kMsg), []) ∧
    isHttp400 (searchEndpoint []
        "foo" (.vec [1,1,2,3,4,5,6,7,8,9]) 0).1 = false :=
  ⟨(c9_nonpositive_k_amended [] [1] "foo" none 0
      (.vec [1,1,2,3,4,5,6,7,8,9]) [[1,1,2,3,4,5,6,7,8,9]] 0).1
      (by decide),
   (c9_nonpositive_k_amended [] [1] "foo" none 0
      (.vec [1,1,2,3,4,5,6,7,8,9]) [[1,1,2,3,4,5,6,7,8,9]] 0).2
      rfl (by decide)⟩

end ImmichML
